import Mathlib

/-!
# Verification of the 9p4z west orchestration commands

Shallow embedding of `src/scripts/west_9p.py`: the two west commands
`9p-serve` (`NinePServe.do_run`) and `9p-run` (`NinePRun.do_run`).

The orchestrator's externally visible behaviour is modelled as a trace of
effects (filesystem checks, PATH-lookups, prints, spawns, sleeps, signals)
together with a terminal outcome.  The environment (`ServeEnv` / `RunEnv`)
supplies the result of each observation the Python code makes (`is_dir`,
`os.path.exists`, `which`, the consumer's exit code) and the schedule of an
optional operator interruption (`KeyboardInterrupt`) at each of the code's
blocking suspension points.

`self.die(msg)` (from the external `west` library, not part of this
repository) prints `msg` and exits the process with a nonzero status; it is
modelled as the terminal outcome `Outcome.died msg`.  A `KeyboardInterrupt`
that no handler in `west_9p.py` catches propagates out of `do_run`; it is
modelled as `Outcome.uncaughtInterrupt`.  A normal return of `do_run`
(Python returns `None`, west then exits 0) is `Outcome.returned`.
-/

/-- One observable effect of the orchestrator. -/
inductive Event where
  /-- `Path(p).is_dir()` was evaluated with the given result. -/
  | checkIsDir (path : String) (result : Bool)
  /-- `os.path.exists(p)` / `Path.exists()` was evaluated with the given result. -/
  | checkExists (path : String) (result : Bool)
  /-- `os.unlink(p)` removed a stale socket. -/
  | unlink (path : String)
  /-- `_check_command(tool)`: a `which tool` PATH lookup with the given result. -/
  | checkCmd (tool : String) (result : Bool)
  /-- `print(msg)`. -/
  | print (msg : String)
  /-- A shell pipeline was spawned (`os.system` or `subprocess.Popen`);
      `newProcessGroup` is true exactly when the spawn used
      `preexec_fn=os.setsid`. -/
  | spawnPipeline (cmd : String) (newProcessGroup : Bool)
  /-- `time.sleep` for the given number of milliseconds. -/
  | sleep (ms : Nat)
  /-- `subprocess.run(cmd)`: the consumer (QEMU) process was spawned. -/
  | spawnConsumer (cmd : List String)
  /-- The consumer's wait completed with this exit code (the Python code
      discards the `CompletedProcess` value). -/
  | consumerExited (code : Int)
  /-- `server_proc.terminate()`: SIGTERM to the pipeline's leader process
      (a single pid, not the whole group). -/
  | terminateProc
  /-- `os.killpg(os.getpgid(server_proc.pid), signal.SIGTERM)`: SIGTERM to
      the pipeline's whole process group. -/
  | killPg
  deriving DecidableEq, Repr

/-- Terminal outcome of a `do_run` call. -/
inductive Outcome where
  /-- `do_run` returned normally; west reports exit status 0. -/
  | returned
  /-- `self.die(msg)` was called: message printed, nonzero exit status. -/
  | died (msg : String)
  /-- A `KeyboardInterrupt` propagated out of `do_run` uncaught. -/
  | uncaughtInterrupt
  deriving DecidableEq, Repr

/-- Exterior-tool address syntax for the server role, Unix case:
`unix!<path>` (source: `addr = f"unix!{args.socket}"` and
`9pserve unix!{args.socket}`). -/
def unixAddr (socket : String) : String := "unix!" ++ socket

/-- Exterior-tool address syntax for the server role, TCP case:
`tcp!*!<port>` (source: `addr = f"tcp!*!{args.port}"`). -/
def tcpAddr (port : Int) : String := "tcp!*!" ++ toString port

/-- Consumer-facing address syntax: `unix:<path>`
(source: `f'unix:{args.socket}'` in the QEMU command). -/
def serialArg (socket : String) : String := "unix:" ++ socket

/-- The exporter|server shell pipeline of the run workflow's auto-start
(source: `f"9pex {serve_dir} | 9pserve unix!{args.socket}"`). -/
def pipelineCmd (dir socket : String) : String :=
  "9pex " ++ dir ++ " | 9pserve " ++ unixAddr socket

/-- The exporter|server shell pipeline of the serve workflow
(source: `cmd = f"9pex {directory} | 9pserve {addr}"`). -/
def serveCmd (directory addr : String) : String :=
  "9pex " ++ directory ++ " | 9pserve " ++ addr

/-- The QEMU invocation built by `NinePRun.do_run` (source lines building
`cmd = ['qemu-system-i386', ...]`).  It depends only on the memory size,
the socket path and the kernel artifact path. -/
def qemuCmd (memory : Int) (socket : String) (kernel : String) : List String :=
  ["qemu-system-i386",
   "-m", toString memory,
   "-cpu", "qemu32",
   "-device", "isa-debug-exit,iobase=0xf4,iosize=0x04",
   "-no-reboot",
   "-nographic",
   "-serial", serialArg socket,
   "-kernel", kernel]

/-! ## The serve workflow (`NinePServe`) -/

/-- Arguments of `west 9p-serve` as produced by `NinePServe.do_add_parser`.
`directory` defaults to the caller's working directory, so it is always a
concrete string here; `port` is `None` when `-p` was not given. -/
structure ServeArgs where
  directory : String
  socket : String := "/tmp/9p.sock"
  port : Option Int := none
  daemon : Bool := false
  deriving DecidableEq, Repr

/-- The blocking suspension points of `NinePServe.do_run` at which an
operator interruption (`KeyboardInterrupt`) can be delivered. -/
inductive ServeIntrPoint where
  /-- During the daemon branch's `time.sleep(0.5)` settle delay, which has
  no `KeyboardInterrupt` handler. -/
  | daemonSleep
  /-- While blocked in the foreground `os.system(cmd)` wait, which is
  wrapped in `try/except KeyboardInterrupt`. -/
  | foregroundWait
  deriving DecidableEq, Repr

/-- Environment observed by `NinePServe.do_run`: results of its filesystem
and PATH observations, plus the schedule of an optional operator
interruption at one of its blocking suspension points. -/
structure ServeEnv where
  /-- Result of `directory.is_dir()` (after `Path.resolve()`). -/
  dirIsDir : Bool
  /-- Result of `which 9pex`. -/
  have9pex : Bool
  /-- Result of `which 9pserve`. -/
  have9pserve : Bool
  /-- Result of `os.path.exists(args.socket)` before the stale unlink. -/
  socketExists : Bool
  /-- Where, if anywhere, a `KeyboardInterrupt` is delivered (it fires when
  that suspension point is reached). -/
  interrupt : Option ServeIntrPoint
  deriving DecidableEq, Repr

/-- Python truthiness of `args.port` in `if args.port:`:
true iff the option was given and its value is nonzero. -/
def portTruthy : Option Int → Bool
  | none => false
  | some p => p != 0

/-- The address string the serve workflow hands to `9pserve`: the TCP form
when a truthy port was given, the Unix form otherwise (source lines 66-75).
No validation of the port or the socket path is performed. -/
def resolvedAddr (args : ServeArgs) : String :=
  match args.port with
  | some p => if p != 0 then tcpAddr p else unixAddr args.socket
  | none => unixAddr args.socket

/-- Shallow embedding of `NinePServe.do_run` (src/scripts/west_9p.py,
lines 54-93).  `args.directory` is taken as already resolved
(`Path.resolve` of the external filesystem is not modelled). -/
def NinePServe.do_run (args : ServeArgs) (env : ServeEnv) :
    List Event × Outcome :=
  if !env.dirIsDir then
    ([.checkIsDir args.directory false],
     .died ("Directory not found: " ++ args.directory))
  else if !env.have9pex then
    ([.checkIsDir args.directory true, .checkCmd "9pex" false],
     .died "9pex not found. Install plan9port (brew install plan9port)")
  else if !env.have9pserve then
    ([.checkIsDir args.directory true, .checkCmd "9pex" true,
      .checkCmd "9pserve" false],
     .died "9pserve not found. Install plan9port (brew install plan9port)")
  else
    let checks : List Event :=
      [.checkIsDir args.directory true, .checkCmd "9pex" true,
       .checkCmd "9pserve" true]
    let unixEvents : List Event :=
      [Event.checkExists args.socket env.socketExists] ++
        (if env.socketExists then [Event.unlink args.socket] else []) ++
        [Event.print ("Starting 9P server on Unix socket " ++ args.socket ++ "...")]
    let addrEvents : List Event :=
      match args.port with
      | some p =>
          if p != 0 then
            [Event.print ("Starting 9P server on TCP port " ++ toString p ++ "...")]
          else unixEvents
      | none => unixEvents
    let cmd := serveCmd args.directory (resolvedAddr args)
    if args.daemon then
      let pre := checks ++ addrEvents ++
        [.print ("Command: " ++ cmd ++ " &"),
         .spawnPipeline (cmd ++ " &") false,
         .sleep 500]
      if env.interrupt = some ServeIntrPoint.daemonSleep then
        (pre, .uncaughtInterrupt)
      else
        (pre ++ [.print "Server started in background"] ++
          (if portTruthy args.port then []
           else [.print ("Socket: " ++ args.socket)]),
         .returned)
    else
      (checks ++ addrEvents ++
       [.print ("Command: " ++ cmd),
        .print "Press Ctrl+C to stop server",
        .spawnPipeline cmd false] ++
       (if env.interrupt = some ServeIntrPoint.foregroundWait
        then [.print "\nServer stopped"] else []),
       .returned)

/-! ## The run workflow (`NinePRun`) -/

/-- Arguments of `west 9p-run` as produced by `NinePRun.do_add_parser`.
Python's `if args.serve_dir:` / `if args.build_dir:` treat the empty
string like an absent argument (truthiness), so an absent-or-empty value
is represented as `none` here. -/
structure RunArgs where
  socket : String := "/tmp/9p.sock"
  board : String := "qemu_x86"
  buildDir : Option String := none
  serveDir : Option String := none
  memory : Int := 32
  deriving DecidableEq, Repr

/-- The blocking suspension points of `NinePRun.do_run` at which an operator
interruption (`KeyboardInterrupt`) can be delivered. -/
inductive IntrPoint where
  /-- During the `time.sleep(0.5)` settle delay after the auto-start spawn. -/
  | settleSleep
  /-- While blocked in `subprocess.run(cmd)` waiting on QEMU. -/
  | consumerWait
  deriving DecidableEq, Repr

/-- Environment observed by `NinePRun.do_run`. -/
structure RunEnv where
  /-- Result of `serve_dir.is_dir()` (after `Path.resolve()`). -/
  serveDirIsDir : Bool
  /-- Result of `os.path.exists(args.socket)` before the stale unlink
  (only queried when `--serve-dir` was given). -/
  socketExistsPre : Bool
  /-- Result of the `os.path.exists(args.socket)` launch-gate check. -/
  socketExistsAtCheck : Bool
  /-- Result of `kernel.exists()`. -/
  kernelExists : Bool
  /-- QEMU's exit code when the consumer wait completes uninterrupted. -/
  consumerExit : Int
  /-- Where, if anywhere, an operator interruption is delivered (it fires
  when that suspension point is reached). -/
  interrupt : Option IntrPoint
  deriving DecidableEq, Repr

/-- The kernel artifact path: `build_dir / 'zephyr' / 'zephyr.elf'` with
`build_dir = args.build_dir or 'build'`. -/
def kernelPath (buildDir : Option String) : String :=
  (buildDir.getD "build") ++ "/zephyr/zephyr.elf"

/-- The tail of `NinePRun.do_run` from the socket launch-gate check on
(src/scripts/west_9p.py, lines 160-203): socket check, kernel check, QEMU
run inside `try/except KeyboardInterrupt/finally`.  `owned` records whether
`server_proc` is non-`None` (the session spawned a pipeline);
`pre` is the trace accumulated so far. -/
def NinePRun.runAfterSpawn (args : RunArgs) (env : RunEnv) (owned : Bool)
    (pre : List Event) : List Event × Outcome :=
  if !env.socketExistsAtCheck then
    (pre ++ [.checkExists args.socket false] ++
       (if owned then [Event.terminateProc] else []),
     .died ("Socket not found: " ++ args.socket ++
            "\nStart server first with: west 9p-serve"))
  else
    let kernel := kernelPath args.buildDir
    if !env.kernelExists then
      (pre ++ [.checkExists args.socket true, .checkExists kernel false] ++
         (if owned then [Event.terminateProc] else []),
       .died ("Kernel not found: " ++ kernel ++
              "\nBuild first with: west build -b " ++ args.board ++
              " 9p4z/samples/9p_client"))
    else
      let cmd := qemuCmd args.memory args.socket kernel
      let waitEvents : List Event :=
        if env.interrupt = some .consumerWait then
          [.spawnConsumer cmd, .print "\nQEMU stopped"]
        else
          [.spawnConsumer cmd, .consumerExited env.consumerExit]
      (pre ++ [.checkExists args.socket true, .checkExists kernel true,
               .print "Running QEMU with 9P client...",
               .print ("Command: " ++ " ".intercalate cmd),
               .print ""] ++
         waitEvents ++
         (if owned then [Event.print "Stopping 9P server...", Event.killPg]
          else []),
       .returned)

/-- Shallow embedding of `NinePRun.do_run` (src/scripts/west_9p.py,
lines 141-203).  The auto-start branch runs when `--serve-dir` was given;
its `time.sleep(0.5)` lies outside the later `try/finally`, so an
interruption delivered there propagates uncaught. -/
def NinePRun.do_run (args : RunArgs) (env : RunEnv) : List Event × Outcome :=
  match args.serveDir with
  | some sd =>
      if !env.serveDirIsDir then
        ([.checkIsDir sd false], .died ("Serve directory not found: " ++ sd))
      else
        let pre : List Event :=
          [.checkIsDir sd true] ++
          (if env.socketExistsPre then
            [Event.checkExists args.socket true, Event.unlink args.socket]
           else [Event.checkExists args.socket false]) ++
          [.print ("Starting 9P server for " ++ sd ++ "..."),
           .spawnPipeline (pipelineCmd sd args.socket) true,
           .sleep 500]
        if env.interrupt = some .settleSleep then
          (pre, .uncaughtInterrupt)
        else
          NinePRun.runAfterSpawn args env true pre
  | none => NinePRun.runAfterSpawn args env false []

/-! ## Trace observables -/

/-- A termination signal of either kind (single-process `terminate` or
group-wide `killpg`). -/
def isTermSignal : Event → Bool
  | .terminateProc => true
  | .killPg => true
  | _ => false

/-- Group-wide termination signal only. -/
def isKillPg : Event → Bool
  | .killPg => true
  | _ => false

/-- A consumer (QEMU) spawn. -/
def isSpawnConsumer : Event → Bool
  | .spawnConsumer _ => true
  | _ => false

/-- A pipeline spawn. -/
def isSpawnPipeline : Event → Bool
  | .spawnPipeline _ _ => true
  | _ => false

/-- A PATH lookup of an external tool. -/
def isCheckCmd : Event → Bool
  | .checkCmd _ _ => true
  | _ => false

/-- Number of termination signals (of either kind) in a trace. -/
def countTermSignals (tr : List Event) : Nat := tr.countP isTermSignal

/-- Number of group-wide termination signals in a trace. -/
def countKillPg (tr : List Event) : Nat := tr.countP isKillPg

/-- Number of consumer spawns in a trace. -/
def countConsumerSpawns (tr : List Event) : Nat := tr.countP isSpawnConsumer

/-! ## Sample inputs used by counterexamples and witnesses -/

/-- A run-workflow invocation with `--serve-dir` supplied (owned pipeline). -/
def sampleRunArgs : RunArgs := { serveDir := some "/srv" }

/-- A benign run environment: serve directory valid, socket present at the
launch gate, kernel present, consumer exits 0, no interruption. -/
def happyRunEnv : RunEnv :=
  { serveDirIsDir := true
    socketExistsPre := false
    socketExistsAtCheck := true
    kernelExists := true
    consumerExit := 0
    interrupt := none }

/-- A serve-workflow invocation with all defaults. -/
def sampleServeArgs : ServeArgs := { directory := "/srv" }

/-- A benign serve environment: directory valid, both tools on PATH, no
stale socket, no interruption. -/
def happyServeEnv : ServeEnv :=
  { dirIsDir := true
    have9pex := true
    have9pserve := true
    socketExists := false
    interrupt := none }

/-- Every trace produced by `runAfterSpawn` extends the accumulated
prefix `pre`. -/
theorem runAfterSpawn_extends (args : RunArgs) (env : RunEnv) (owned : Bool)
    (pre : List Event) :
    ∃ tail, (NinePRun.runAfterSpawn args env owned pre).1 = pre ++ tail := by
  unfold NinePRun.runAfterSpawn
  by_cases h1 : env.socketExistsAtCheck <;>
    by_cases h2 : env.kernelExists <;>
      simp [h1, h2]

/-! ## C1 -/

/-- C1 counterexample: a session that spawned its pipeline (serve-dir
supplied, `Popen` succeeded) and is interrupted during the settle sleep
reaches a terminal outcome with the pipeline spawned but **zero**
termination signals sent, contradicting "exactly once". -/
theorem C1_counterexample :
    (NinePRun.do_run sampleRunArgs
        { happyRunEnv with interrupt := some .settleSleep }).1.countP
        isSpawnPipeline = 1 ∧
    countTermSignals (NinePRun.do_run sampleRunArgs
        { happyRunEnv with interrupt := some .settleSleep }).1 = 0 := by
  decide

/-- C1 (amended): when the session owns a pipeline, the number of
termination signals sent by the time the call returns is exactly one on
every terminal outcome **except** an interruption during the settle sleep,
where it is zero; moreover the group-wide signal (`killpg`) is used only on
the paths that reach the consumer wait — the precondition-failure paths
signal only the pipeline's leader process. -/
theorem C1_teardown_signals (args : RunArgs) (env : RunEnv) (sd : String)
    (hsd : args.serveDir = some sd) (hdir : env.serveDirIsDir = true) :
    countTermSignals (NinePRun.do_run args env).1 =
      (if env.interrupt = some IntrPoint.settleSleep then 0 else 1) ∧
    countKillPg (NinePRun.do_run args env).1 =
      (if env.interrupt = some IntrPoint.settleSleep ∨
          env.socketExistsAtCheck = false ∨ env.kernelExists = false
       then 0 else 1) := by
  obtain ⟨sdir, spre, scheck, kex, cexit, intr⟩ := env
  simp only at hdir
  subst hdir
  simp only [NinePRun.do_run, hsd]
  rcases intr with _ | intr
  · rcases spre <;> rcases scheck <;> rcases kex <;>
      simp [NinePRun.runAfterSpawn, countTermSignals, countKillPg,
        List.countP_append, List.countP_cons, isTermSignal, isKillPg]
  · rcases intr <;> rcases spre <;> rcases scheck <;> rcases kex <;>
      simp [NinePRun.runAfterSpawn, countTermSignals, countKillPg,
        List.countP_append, List.countP_cons, isTermSignal, isKillPg]

/-- C1 witness: the amended teardown count at a concrete benign input. -/
theorem C1_witness :
    countTermSignals (NinePRun.do_run sampleRunArgs happyRunEnv).1 =
      (if happyRunEnv.interrupt = some IntrPoint.settleSleep then 0 else 1) ∧
    countKillPg (NinePRun.do_run sampleRunArgs happyRunEnv).1 =
      (if happyRunEnv.interrupt = some IntrPoint.settleSleep ∨
          happyRunEnv.socketExistsAtCheck = false ∨
          happyRunEnv.kernelExists = false
       then 0 else 1) :=
  C1_teardown_signals sampleRunArgs happyRunEnv "/srv" rfl rfl

/-! ## C2 -/

/-- C2 counterexample: the consumer exits with code 1, yet the session's
outcome is the clean `returned` (west exit status 0): the nonzero consumer
exit code is discarded, not forwarded. -/
theorem C2_counterexample :
    Event.consumerExited 1 ∈
      (NinePRun.do_run sampleRunArgs { happyRunEnv with consumerExit := 1 }).1 ∧
    (NinePRun.do_run sampleRunArgs
        { happyRunEnv with consumerExit := 1 }).2 = Outcome.returned := by
  decide

/-- C2 (amended): the session discards the consumer's exit code — on every
path that reaches the consumer run (socket present, kernel present, no
settle-sleep interruption), `do_run` returns normally (session exit status
0) regardless of the consumer's exit code. -/
theorem C2_exit_code_discarded (args : RunArgs) (env : RunEnv)
    (hsock : env.socketExistsAtCheck = true) (hk : env.kernelExists = true)
    (hsd : ∀ sd, args.serveDir = some sd →
      env.serveDirIsDir = true ∧ env.interrupt ≠ some IntrPoint.settleSleep) :
    (NinePRun.do_run args env).2 = Outcome.returned := by
  obtain ⟨sdir, spre, scheck, kex, cexit, intr⟩ := env
  simp only at hsock hk
  subst hsock hk
  rcases hargs : args.serveDir with _ | sd
  · simp [NinePRun.do_run, hargs, NinePRun.runAfterSpawn]
  · obtain ⟨hdir, hintr⟩ := hsd sd hargs
    simp only at hdir
    subst hdir
    simp only [NinePRun.do_run, hargs]
    rcases intr with _ | intr
    · rcases spre <;> simp [NinePRun.runAfterSpawn]
    · rcases intr
      · simp at hintr
      · rcases spre <;> simp [NinePRun.runAfterSpawn]

/-- C2 witness: the amended statement at a concrete input with a nonzero
consumer exit code. -/
theorem C2_witness :
    (NinePRun.do_run sampleRunArgs
        { happyRunEnv with consumerExit := 7 }).2 = Outcome.returned :=
  C2_exit_code_discarded sampleRunArgs { happyRunEnv with consumerExit := 7 }
    rfl rfl (fun _ _ => ⟨rfl, by decide⟩)

/-! ## C3 -/

/-- C3 counterexample: an operator interruption delivered during the settle
delay (a blocking suspension point of the orchestration) propagates as a
generic unhandled error with no teardown, instead of a recognized terminal
state. -/
theorem C3_counterexample :
    (NinePRun.do_run sampleRunArgs
        { happyRunEnv with interrupt := some .settleSleep }).2 =
      Outcome.uncaughtInterrupt ∧
    Event.killPg ∉ (NinePRun.do_run sampleRunArgs
        { happyRunEnv with interrupt := some .settleSleep }).1 ∧
    Event.terminateProc ∉ (NinePRun.do_run sampleRunArgs
        { happyRunEnv with interrupt := some .settleSleep }).1 := by
  decide

/-- C3 (amended): an interruption while blocked on the consumer wait is
caught, the owned pipeline is group-signalled, and the session returns
normally; an interruption at the serve workflow's foreground wait is
likewise caught (no serve execution not interrupted at the daemon-mode
settle sleep ends in an unhandled error); but an interruption during
either fixed settle delay — the run workflow's auto-start sleep and the
serve workflow's daemon-mode sleep — propagates as a generic unhandled
error with no teardown at all. -/
theorem C3_interrupt_behaviour :
    (∀ (args : RunArgs) (env : RunEnv),
      env.interrupt = some IntrPoint.consumerWait →
      env.socketExistsAtCheck = true → env.kernelExists = true →
      (∀ sd, args.serveDir = some sd → env.serveDirIsDir = true) →
      (NinePRun.do_run args env).2 = Outcome.returned ∧
        (∀ sd, args.serveDir = some sd →
          Event.killPg ∈ (NinePRun.do_run args env).1)) ∧
    (∀ (args : ServeArgs) (env : ServeEnv),
      env.interrupt ≠ some ServeIntrPoint.daemonSleep →
      (NinePServe.do_run args env).2 ≠ Outcome.uncaughtInterrupt) ∧
    (∀ (args : RunArgs) (env : RunEnv) (sd : String),
      env.interrupt = some IntrPoint.settleSleep →
      args.serveDir = some sd → env.serveDirIsDir = true →
      (NinePRun.do_run args env).2 = Outcome.uncaughtInterrupt ∧
        countTermSignals (NinePRun.do_run args env).1 = 0) ∧
    (∀ (args : ServeArgs) (env : ServeEnv),
      env.dirIsDir = true → env.have9pex = true → env.have9pserve = true →
      args.daemon = true → env.interrupt = some ServeIntrPoint.daemonSleep →
      (NinePServe.do_run args env).2 = Outcome.uncaughtInterrupt ∧
        Event.killPg ∉ (NinePServe.do_run args env).1) := by
  refine ⟨?_, ?_, ?_, ?_⟩
  · intro args env hintr hsock hk hsd
    obtain ⟨sdir, spre, scheck, kex, cexit, intr⟩ := env
    simp only at hintr hsock hk
    subst hintr hsock hk
    rcases hargs : args.serveDir with _ | sd
    · refine ⟨?_, ?_⟩
      · simp [NinePRun.do_run, hargs, NinePRun.runAfterSpawn]
      · intro sd h
        simp [hargs] at h
    · have hdir := hsd sd hargs
      simp only at hdir
      subst hdir
      refine ⟨?_, fun sd2 h2 => ?_⟩ <;>
        rcases spre <;>
          simp [NinePRun.do_run, hargs, NinePRun.runAfterSpawn]
  · intro args env hi
    obtain ⟨dird, hex, hserve, sexists, intr⟩ := env
    simp only at hi
    unfold NinePServe.do_run
    rcases dird <;> rcases hex <;> rcases hserve <;>
      rcases hp : args.port with _ | p <;>
        rcases hdm : args.daemon <;> simp_all
  · intro args env sd hintr hsd hdir
    obtain ⟨sdir, spre, scheck, kex, cexit, intr⟩ := env
    simp only at hintr hdir
    subst hintr hdir
    rcases spre <;>
      simp [NinePRun.do_run, hsd, countTermSignals, List.countP_append,
        List.countP_cons, isTermSignal]
  · intro args env hd h1 h2 hdm hi
    obtain ⟨dird, hex, hserve, sexists, intr⟩ := env
    simp only at hd h1 h2 hi
    subst hd h1 h2 hi
    unfold NinePServe.do_run
    rcases hp : args.port with _ | p
    · rcases sexists <;> simp [hdm]
    · rcases hz : p != 0 <;> rcases sexists <;> simp [hdm, hz]

/-- C3 witness: the amended statement instantiated at concrete inputs for
each of the four conjuncts. -/
theorem C3_witness :
    ((NinePRun.do_run sampleRunArgs
        { happyRunEnv with interrupt := some .consumerWait }).2 =
      Outcome.returned ∧
      (∀ sd, sampleRunArgs.serveDir = some sd →
        Event.killPg ∈ (NinePRun.do_run sampleRunArgs
          { happyRunEnv with interrupt := some .consumerWait }).1)) ∧
    (NinePServe.do_run sampleServeArgs
        { happyServeEnv with interrupt := some .foregroundWait }).2 ≠
      Outcome.uncaughtInterrupt ∧
    ((NinePRun.do_run sampleRunArgs
        { happyRunEnv with interrupt := some .settleSleep }).2 =
      Outcome.uncaughtInterrupt ∧
      countTermSignals (NinePRun.do_run sampleRunArgs
        { happyRunEnv with interrupt := some .settleSleep }).1 = 0) ∧
    ((NinePServe.do_run { directory := "/srv", daemon := true }
        { happyServeEnv with interrupt := some .daemonSleep }).2 =
      Outcome.uncaughtInterrupt ∧
      Event.killPg ∉ (NinePServe.do_run { directory := "/srv", daemon := true }
        { happyServeEnv with interrupt := some .daemonSleep }).1) :=
  ⟨C3_interrupt_behaviour.1 sampleRunArgs
      { happyRunEnv with interrupt := some .consumerWait }
      rfl rfl rfl (fun _ _ => rfl),
   C3_interrupt_behaviour.2.1 sampleServeArgs
      { happyServeEnv with interrupt := some .foregroundWait } (by decide),
   C3_interrupt_behaviour.2.2.1 sampleRunArgs
      { happyRunEnv with interrupt := some .settleSleep }
      "/srv" rfl rfl rfl,
   C3_interrupt_behaviour.2.2.2 { directory := "/srv", daemon := true }
      { happyServeEnv with interrupt := some .daemonSleep }
      rfl rfl rfl rfl rfl⟩

/-! ## C4 -/

/-- C4 counterexample: a negative TCP port (-1) is not rejected — no
`InvalidEndpoint` failure occurs, the address `tcp!*!-1` is rendered and a
pipeline process is started from the invalid endpoint. -/
theorem C4_counterexample :
    Event.spawnPipeline (serveCmd "/srv" (tcpAddr (-1))) false ∈
      (NinePServe.do_run { directory := "/srv", port := some (-1) }
        happyServeEnv).1 ∧
    (NinePServe.do_run { directory := "/srv", port := some (-1) }
        happyServeEnv).2 = Outcome.returned := by
  decide

/-- C4 (amended): endpoint resolution performs no validation at all —
whenever the directory and tool checks pass, the serve workflow spawns the
pipeline on the resolved address and returns normally, for every port value
(a nonzero port, including a negative one, yields the TCP form; port 0 is
treated as "no port", falling back to the Unix socket) and every socket
path, including the empty string. -/
theorem C4_no_endpoint_validation (args : ServeArgs) (env : ServeEnv)
    (hd : env.dirIsDir = true) (h1 : env.have9pex = true)
    (h2 : env.have9pserve = true)
    (hi : env.interrupt ≠ some ServeIntrPoint.daemonSleep) :
    Event.spawnPipeline
        (serveCmd args.directory (resolvedAddr args) ++
          (if args.daemon then " &" else "")) false ∈
      (NinePServe.do_run args env).1 ∧
    (NinePServe.do_run args env).2 = Outcome.returned := by
  obtain ⟨dird, hex, hserve, sexists, intrf⟩ := env
  simp only at hd h1 h2 hi
  subst hd h1 h2
  unfold NinePServe.do_run resolvedAddr
  rcases hp : args.port with _ | p
  · rcases hdm : args.daemon <;> rcases sexists <;> simp [hi]
  · rcases hz : p != 0 <;> rcases hdm : args.daemon <;> rcases sexists <;>
      simp [hz, hi]

/-- C4 witness: the amended statement at a concrete invalid endpoint
(negative port). -/
theorem C4_witness :
    Event.spawnPipeline
        (serveCmd "/srv" (resolvedAddr { directory := "/srv", port := some (-5) }) ++
          (if ({ directory := "/srv", port := some (-5) } : ServeArgs).daemon
           then " &" else "")) false ∈
      (NinePServe.do_run { directory := "/srv", port := some (-5) }
        happyServeEnv).1 ∧
    (NinePServe.do_run { directory := "/srv", port := some (-5) }
        happyServeEnv).2 = Outcome.returned :=
  C4_no_endpoint_validation { directory := "/srv", port := some (-5) }
    happyServeEnv rfl rfl rfl (by decide)

/-! ## C5 -/

/-- C5 counterexample: the run workflow's serve-dir auto-start spawns the
pipeline without a single PATH lookup of the exporter or server tool — the
trace contains a pipeline spawn and zero `which` probes. -/
theorem C5_counterexample :
    Event.spawnPipeline (pipelineCmd "/srv" "/tmp/9p.sock") true ∈
      (NinePRun.do_run sampleRunArgs happyRunEnv).1 ∧
    (NinePRun.do_run sampleRunArgs happyRunEnv).1.countP isCheckCmd = 0 := by
  decide

/-- C5 (amended): the serve workflow checks the directory and both tools
before spawning, and spawns nothing on any failed check; the run workflow's
auto-start checks only the serve directory — it performs no PATH lookup
whatsoever and spawns the pipeline as soon as the directory is valid. -/
theorem C5_dependency_checks :
    (∀ (args : ServeArgs) (env : ServeEnv),
      (env.dirIsDir = false ∨ env.have9pex = false ∨ env.have9pserve = false) →
      (NinePServe.do_run args env).1.countP isSpawnPipeline = 0 ∧
        ∃ m, (NinePServe.do_run args env).2 = Outcome.died m) ∧
    (∀ (args : RunArgs) (env : RunEnv),
      (NinePRun.do_run args env).1.countP isCheckCmd = 0) ∧
    (∀ (args : RunArgs) (env : RunEnv) (sd : String),
      args.serveDir = some sd → env.serveDirIsDir = false →
      (NinePRun.do_run args env).1.countP isSpawnPipeline = 0 ∧
        (NinePRun.do_run args env).2 =
          Outcome.died ("Serve directory not found: " ++ sd)) := by
  refine ⟨?_, ?_, ?_⟩
  · intro args env h
    unfold NinePServe.do_run
    rcases hd : env.dirIsDir <;> rcases h1 : env.have9pex <;>
      rcases h2 : env.have9pserve <;>
        simp_all [isSpawnPipeline, List.countP_cons]
  · intro args env
    obtain ⟨sdir, spre, scheck, kex, cexit, intr⟩ := env
    rcases hargs : args.serveDir with _ | sd
    · rcases scheck <;> rcases kex <;>
        rcases intr with _ | (_ | _) <;>
          simp [NinePRun.do_run, hargs, NinePRun.runAfterSpawn, isCheckCmd,
            List.countP_append, List.countP_cons]
    · rcases sdir <;> rcases spre <;> rcases scheck <;> rcases kex <;>
        rcases intr with _ | (_ | _) <;>
          simp [NinePRun.do_run, hargs, NinePRun.runAfterSpawn, isCheckCmd,
            List.countP_append, List.countP_cons]
  · intro args env sd hsd hdir
    simp [NinePRun.do_run, hsd, hdir, isSpawnPipeline]

/-- C5 witness: the amended statement instantiated at concrete inputs:
a serve invocation with the exporter tool missing from PATH, a benign run
invocation, and a run invocation with an invalid serve directory. -/
theorem C5_witness :
    ((NinePServe.do_run sampleServeArgs
        { happyServeEnv with have9pex := false }).1.countP isSpawnPipeline = 0 ∧
      ∃ m, (NinePServe.do_run sampleServeArgs
        { happyServeEnv with have9pex := false }).2 = Outcome.died m) ∧
    (NinePRun.do_run sampleRunArgs happyRunEnv).1.countP isCheckCmd = 0 ∧
    ((NinePRun.do_run sampleRunArgs
        { happyRunEnv with serveDirIsDir := false }).1.countP
        isSpawnPipeline = 0 ∧
      (NinePRun.do_run sampleRunArgs
        { happyRunEnv with serveDirIsDir := false }).2 =
        Outcome.died ("Serve directory not found: " ++ "/srv")) :=
  ⟨C5_dependency_checks.1 sampleServeArgs
      { happyServeEnv with have9pex := false } (Or.inr (Or.inl rfl)),
   C5_dependency_checks.2.1 sampleRunArgs happyRunEnv,
   C5_dependency_checks.2.2 sampleRunArgs
      { happyRunEnv with serveDirIsDir := false } "/srv" rfl rfl⟩

/-! ## C6 -/

/-- C6 counterexample: the serve workflow's daemon-mode pipeline is spawned
via `os.system` without `os.setsid` — the spawn is **not** the leader of a
new process group. -/
theorem C6_counterexample :
    Event.spawnPipeline (serveCmd "/srv" (unixAddr "/tmp/9p.sock") ++ " &")
        false ∈
      (NinePServe.do_run { directory := "/srv", daemon := true }
        happyServeEnv).1 := by
  decide

/-- C6 (amended): only the run workflow's auto-start spawns its pipeline as
the leader of a new process group (`preexec_fn=os.setsid`); every pipeline
spawn of the serve workflow — foreground and daemon alike — runs via
`os.system` in the caller's process group. -/
theorem C6_process_group_flags :
    (∀ (args : RunArgs) (env : RunEnv) (cmd : String) (b : Bool),
      Event.spawnPipeline cmd b ∈ (NinePRun.do_run args env).1 → b = true) ∧
    (∀ (args : ServeArgs) (env : ServeEnv) (cmd : String) (b : Bool),
      Event.spawnPipeline cmd b ∈ (NinePServe.do_run args env).1 →
        b = false) := by
  constructor
  · intro args env cmd b h
    obtain ⟨sdir, spre, scheck, kex, cexit, intr⟩ := env
    rcases hargs : args.serveDir with _ | sd
    · rcases scheck <;> rcases kex <;>
        rcases intr with _ | (_ | _) <;>
          simp [NinePRun.do_run, hargs, NinePRun.runAfterSpawn] at h
    · rcases sdir <;> rcases spre <;> rcases scheck <;> rcases kex <;>
        rcases intr with _ | (_ | _) <;>
          simp [NinePRun.do_run, hargs, NinePRun.runAfterSpawn] at h <;>
            simp [h]
  · intro args env cmd b h
    obtain ⟨dird, hex, hserve, sexists, intrf⟩ := env
    rcases hp : args.port with _ | p
    · rcases dird <;> rcases hex <;> rcases hserve <;>
        rcases hdm : args.daemon <;> rcases sexists <;>
          rcases intrf with _ | (_ | _) <;>
            simp [NinePServe.do_run, hp, hdm] at h <;> simp [h]
    · by_cases hz : p = 0 <;>
        rcases dird <;> rcases hex <;> rcases hserve <;>
          rcases hdm : args.daemon <;> rcases sexists <;>
            rcases intrf with _ | (_ | _) <;>
              simp [NinePServe.do_run, hp, hdm, hz] at h <;> simp [h]

/-- C6 witness: the amended flag characterization at the concrete spawns of
a benign run invocation and a daemon serve invocation. -/
theorem C6_witness :
    (Event.spawnPipeline (pipelineCmd "/srv" "/tmp/9p.sock") true ∈
        (NinePRun.do_run sampleRunArgs happyRunEnv).1 ∧ true = true) ∧
    (Event.spawnPipeline (serveCmd "/srv" (unixAddr "/tmp/9p.sock") ++ " &")
        false ∈
        (NinePServe.do_run { directory := "/srv", daemon := true }
          happyServeEnv).1 ∧ false = false) :=
  ⟨⟨by decide, C6_process_group_flags.1 sampleRunArgs happyRunEnv
      (pipelineCmd "/srv" "/tmp/9p.sock") true (by decide)⟩,
   ⟨by decide, C6_process_group_flags.2 { directory := "/srv", daemon := true }
      happyServeEnv (serveCmd "/srv" (unixAddr "/tmp/9p.sock") ++ " &") false
      (by decide)⟩⟩

/-! ## C7 -/

/-- A run-workflow invocation with all defaults (no serve-dir). -/
def noServeArgs : RunArgs := {}

/-- C7: whenever the Unix socket path does not exist at the launch-gate
check, the run workflow dies with the socket-not-found message carrying the
hint to start the service first, and no consumer process is ever spawned on
this path. -/
theorem C7_socket_gate (args : RunArgs) (env : RunEnv)
    (hsock : env.socketExistsAtCheck = false)
    (hsd : ∀ sd, args.serveDir = some sd →
      env.serveDirIsDir = true ∧ env.interrupt ≠ some IntrPoint.settleSleep) :
    (NinePRun.do_run args env).2 =
      Outcome.died ("Socket not found: " ++ args.socket ++
        "\nStart server first with: west 9p-serve") ∧
    countConsumerSpawns (NinePRun.do_run args env).1 = 0 := by
  obtain ⟨sdir, spre, scheck, kex, cexit, intr⟩ := env
  simp only at hsock
  subst hsock
  rcases hargs : args.serveDir with _ | sd
  · simp [NinePRun.do_run, hargs, NinePRun.runAfterSpawn, countConsumerSpawns,
      List.countP_cons, isSpawnConsumer]
  · obtain ⟨hdir, hintr⟩ := hsd sd hargs
    simp only at hdir
    subst hdir
    rcases intr with _ | (_ | _) <;> rcases spre <;>
      simp_all [NinePRun.do_run, hargs, NinePRun.runAfterSpawn,
        countConsumerSpawns, List.countP_append, List.countP_cons,
        isSpawnConsumer]

/-- C7 witness: the socket gate at a concrete invocation without serve-dir
and with the socket absent. -/
theorem C7_witness :
    (NinePRun.do_run noServeArgs
        { happyRunEnv with socketExistsAtCheck := false }).2 =
      Outcome.died ("Socket not found: " ++ noServeArgs.socket ++
        "\nStart server first with: west 9p-serve") ∧
    countConsumerSpawns (NinePRun.do_run noServeArgs
        { happyRunEnv with socketExistsAtCheck := false }).1 = 0 :=
  C7_socket_gate noServeArgs { happyRunEnv with socketExistsAtCheck := false }
    rfl (fun _ h => Option.noConfusion h)

/-! ## C8 -/

/-- C8: the server-facing address is rendered exactly as `unix!<path>`
(or `tcp!*!<port>` for a truthy TCP port), the consumer-facing serial
transport is rendered exactly as `unix:<path>`, and the two renderings of
the same Unix endpoint are different strings. -/
theorem C8_address_forms (dir path kernel : String) (p m : Int) :
    resolvedAddr { directory := dir, socket := path, port := some p } =
      (if p = 0 then "unix!" ++ path else "tcp!*!" ++ toString p) ∧
    resolvedAddr { directory := dir, socket := path, port := none } =
      "unix!" ++ path ∧
    pipelineCmd dir path =
      "9pex " ++ dir ++ " | 9pserve " ++ ("unix!" ++ path) ∧
    qemuCmd m path kernel =
      ["qemu-system-i386", "-m", toString m, "-cpu", "qemu32", "-device",
       "isa-debug-exit,iobase=0xf4,iosize=0x04", "-no-reboot", "-nographic",
       "-serial", "unix:" ++ path, "-kernel", kernel] ∧
    unixAddr path ≠ serialArg path := by
  refine ⟨?_, rfl, rfl, rfl, ?_⟩
  · by_cases hp : p = 0 <;> simp [resolvedAddr, hp, tcpAddr, unixAddr]
  · intro h
    have h2 := congrArg String.data h
    simp [unixAddr, serialArg, String.data_append] at h2

/-! ## C9 -/

/-- C9: after spawning the service pipeline — the run workflow's auto-start
and the serve workflow's daemon mode — the very next thing the orchestrator
does is a fixed `time.sleep(0.5)` (500 ms); in particular no readiness
check of the endpoint occurs between the spawn and the sleep. -/
theorem C9_settle_delay :
    (∀ (args : RunArgs) (env : RunEnv) (sd : String),
      args.serveDir = some sd → env.serveDirIsDir = true →
      ∃ pre rest, (NinePRun.do_run args env).1 =
        pre ++ [Event.spawnPipeline (pipelineCmd sd args.socket) true,
                Event.sleep 500] ++ rest) ∧
    (∀ (args : ServeArgs) (env : ServeEnv),
      env.dirIsDir = true → env.have9pex = true → env.have9pserve = true →
      args.daemon = true →
      ∃ pre rest, (NinePServe.do_run args env).1 =
        pre ++ [Event.spawnPipeline
                  (serveCmd args.directory (resolvedAddr args) ++ " &") false,
                Event.sleep 500] ++ rest) := by
  constructor
  · intro args env sd hsd hdir
    obtain ⟨sdir, spre, scheck, kex, cexit, intr⟩ := env
    simp only at hdir
    subst hdir
    by_cases hintr : intr = some IntrPoint.settleSleep
    · refine ⟨[Event.checkIsDir sd true] ++
        (if spre then [Event.checkExists args.socket true,
                       Event.unlink args.socket]
         else [Event.checkExists args.socket false]) ++
        [Event.print ("Starting 9P server for " ++ sd ++ "...")], [], ?_⟩
      rcases spre <;> simp [NinePRun.do_run, hsd, hintr]
    · obtain ⟨tail, htail⟩ := runAfterSpawn_extends args
        ⟨true, spre, scheck, kex, cexit, intr⟩ true
        ([Event.checkIsDir sd true] ++
          (if spre then [Event.checkExists args.socket true,
                         Event.unlink args.socket]
           else [Event.checkExists args.socket false]) ++
          [Event.print ("Starting 9P server for " ++ sd ++ "..."),
           Event.spawnPipeline (pipelineCmd sd args.socket) true,
           Event.sleep 500])
      refine ⟨[Event.checkIsDir sd true] ++
        (if spre then [Event.checkExists args.socket true,
                       Event.unlink args.socket]
         else [Event.checkExists args.socket false]) ++
        [Event.print ("Starting 9P server for " ++ sd ++ "...")], tail, ?_⟩
      have hgoal : (NinePRun.do_run args
          ⟨true, spre, scheck, kex, cexit, intr⟩).1 =
          (NinePRun.runAfterSpawn args ⟨true, spre, scheck, kex, cexit, intr⟩
            true
            ([Event.checkIsDir sd true] ++
              (if spre then [Event.checkExists args.socket true,
                             Event.unlink args.socket]
               else [Event.checkExists args.socket false]) ++
              [Event.print ("Starting 9P server for " ++ sd ++ "..."),
               Event.spawnPipeline (pipelineCmd sd args.socket) true,
               Event.sleep 500])).1 := by
        rcases spre <;> simp [NinePRun.do_run, hsd, hintr]
      rw [hgoal, htail]
      rcases spre <;> simp
  · intro args env hd h1 h2 hdm
    obtain ⟨dir, sock, port, daemon⟩ := args
    obtain ⟨dird, hex, hserve, sexists, intrf⟩ := env
    simp only at hd h1 h2 hdm
    subst hd h1 h2 hdm
    rcases hp : port with _ | p
    · refine ⟨[Event.checkIsDir dir true, Event.checkCmd "9pex" true,
        Event.checkCmd "9pserve" true, Event.checkExists sock sexists] ++
        (if sexists then [Event.unlink sock] else []) ++
        [Event.print ("Starting 9P server on Unix socket " ++ sock ++ "..."),
         Event.print ("Command: " ++
           serveCmd dir (unixAddr sock) ++ " &")],
        (if intrf = some ServeIntrPoint.daemonSleep then []
         else [Event.print "Server started in background",
               Event.print ("Socket: " ++ sock)]), ?_⟩
      by_cases hi : intrf = some ServeIntrPoint.daemonSleep <;>
        rcases sexists <;>
          simp [NinePServe.do_run, resolvedAddr, portTruthy, serveCmd, hi]
    · by_cases hz : p = 0
      · subst hz
        refine ⟨[Event.checkIsDir dir true, Event.checkCmd "9pex" true,
          Event.checkCmd "9pserve" true, Event.checkExists sock sexists] ++
          (if sexists then [Event.unlink sock] else []) ++
          [Event.print ("Starting 9P server on Unix socket " ++ sock ++ "..."),
           Event.print ("Command: " ++
             serveCmd dir (unixAddr sock) ++ " &")],
          (if intrf = some ServeIntrPoint.daemonSleep then []
           else [Event.print "Server started in background",
                 Event.print ("Socket: " ++ sock)]), ?_⟩
        by_cases hi : intrf = some ServeIntrPoint.daemonSleep <;>
          rcases sexists <;>
            simp [NinePServe.do_run, resolvedAddr, portTruthy, serveCmd, hi]
      · refine ⟨[Event.checkIsDir dir true, Event.checkCmd "9pex" true,
          Event.checkCmd "9pserve" true,
          Event.print ("Starting 9P server on TCP port " ++ toString p ++ "..."),
          Event.print ("Command: " ++ serveCmd dir (tcpAddr p) ++ " &")],
          (if intrf = some ServeIntrPoint.daemonSleep then []
           else [Event.print "Server started in background"]), ?_⟩
        by_cases hi : intrf = some ServeIntrPoint.daemonSleep <;>
          simp [NinePServe.do_run, resolvedAddr, portTruthy, serveCmd, hz, hi]

/-- C9 witness: spawn-then-sleep adjacency at concrete benign inputs for
both workflows. -/
theorem C9_witness :
    (∃ pre rest, (NinePRun.do_run sampleRunArgs happyRunEnv).1 =
      pre ++ [Event.spawnPipeline (pipelineCmd "/srv" sampleRunArgs.socket)
                true,
              Event.sleep 500] ++ rest) ∧
    (∃ pre rest, (NinePServe.do_run { directory := "/srv", daemon := true }
        happyServeEnv).1 =
      pre ++ [Event.spawnPipeline
                (serveCmd "/srv"
                  (resolvedAddr { directory := "/srv", daemon := true }) ++ " &")
                false,
              Event.sleep 500] ++ rest) :=
  ⟨C9_settle_delay.1 sampleRunArgs happyRunEnv "/srv" rfl rfl,
   C9_settle_delay.2 { directory := "/srv", daemon := true } happyServeEnv
     rfl rfl rfl rfl⟩

/-! ## C10 -/

/-- C10: the board selector does not influence the consumer invocation —
whenever the kernel artifact exists, two run invocations differing only in
the board argument behave identically (same trace, same outcome;
in particular the same QEMU command line, whose binary is always
`qemu-system-i386` and which depends only on memory, socket and kernel
path). -/
theorem C10_board_noninterference (args : RunArgs) (env : RunEnv)
    (b : String) (hk : env.kernelExists = true) :
    NinePRun.do_run { args with board := b } env = NinePRun.do_run args env := by
  obtain ⟨sock, bd, bdir, sdv, mem⟩ := args
  obtain ⟨sdir, spre, scheck, kex, cexit, intr⟩ := env
  simp only at hk
  subst hk
  rcases sdv with _ | sd
  · rcases scheck <;> rcases intr with _ | (_ | _) <;>
      simp [NinePRun.do_run, NinePRun.runAfterSpawn]
  · rcases sdir <;> rcases spre <;> rcases scheck <;>
      rcases intr with _ | (_ | _) <;>
        simp [NinePRun.do_run, NinePRun.runAfterSpawn]

/-- C10 witness: board noninterference at a concrete pair of invocations
differing only in the board argument. -/
theorem C10_witness :
    NinePRun.do_run { sampleRunArgs with board := "qemu_x86_64" } happyRunEnv =
      NinePRun.do_run sampleRunArgs happyRunEnv :=
  C10_board_noninterference sampleRunArgs happyRunEnv "qemu_x86_64" rfl
